import Mathlib

/-!
A shallow embedding of teldrive's upload/storage engine
(src/pkg/services/upload.go and src/utils/tgc/tgc.go), with theorems
checking the specification's claims about it.

Go errors are modelled by their message (`GoErr`); machine integers by
`Int`/`Nat` (no arithmetic here overflows in the source's range of use);
fallible collaborator calls (database, transport, crypto, random source)
by `Except`/`Option`-valued oracle fields of an environment record, one
per call site, so that each execution of `UploadFile` is a pure function
of the request and of what every collaborator answered.
-/

namespace Teldrive

/-- A Go error, carried by its message. -/
abbrev GoErr := String

/-- models.Upload — one ledger row per transmitted part
(the composite literal at src/pkg/services/upload.go:235-245, plus the
`created_at` column the ledger queries filter on). -/
structure Upload where
  name : String
  uploadId : String
  partId : Int
  channelId : Int
  size : Int
  partNo : Int
  userId : Int
  encrypted : Bool
  salt : String
  createdAt : Int
  deriving DecidableEq, Repr

/-- Modelled from the spec: pkg/schemas is not under src/. §6 exposes
"ordered part descriptors (name, part number, size)". -/
structure UploadPartOut where
  name : String
  partNo : Int
  size : Int
  deriving DecidableEq, Repr

/-- Modelled from the spec: pkg/mapper is not under src/. §4.5 step 9
returns "the mapped Part Record view". -/
def toUploadOut (u : Upload) : UploadPartOut :=
  ⟨u.name, u.partNo, u.size⟩

/-- schemas.UploadOut — the listing result, a wrapper around the parts. -/
structure UploadOut where
  parts : List UploadPartOut
  deriving DecidableEq, Repr

/-- schemas.Message — the delete confirmation body. -/
structure Message where
  message : String
  deriving DecidableEq, Repr

/-- config.TGConfig.Uploads: the fields upload.go reads
(EncryptionKey at line 117/191, Retention at line 56). -/
structure UploadsConfig where
  encryptionKey : String
  retention : Int
  deriving DecidableEq, Repr

/-- Insertion into a list sorted by `partNo` (stable). -/
def insertByPartNo (u : Upload) : List Upload → List Upload
  | [] => [u]
  | v :: vs => if u.partNo ≤ v.partNo then u :: v :: vs else v :: insertByPartNo u vs

/-- ORDER BY part_no of src/pkg/services/upload.go:55. -/
def sortByPartNo (l : List Upload) : List Upload :=
  l.foldr insertByPartNo []

/-- GetUploadFileById (src/pkg/services/upload.go:52-62): SELECT the rows of
the session WHERE `created_at < now + retention` (the comparison exactly as
the source builds it: `time.Now().UTC().Add(us.cnf.Uploads.Retention)`),
ORDER BY part_no, mapped to the part descriptors. `dbErr` is the database's
answer: `some e` models a failing query, in which case the error is
propagated. -/
def GetUploadFileById (cnf : UploadsConfig) (ledger : List Upload)
    (uploadId : String) (now : Int) (dbErr : Option GoErr) :
    Except GoErr UploadOut :=
  match dbErr with
  | some e => .error e
  | none =>
      .ok ⟨(sortByPartNo (ledger.filter fun u =>
        u.uploadId == uploadId && decide (u.createdAt < now + cnf.retention))).map
          toUploadOut⟩

/-- DeleteUploadFile (src/pkg/services/upload.go:64-70): DELETE the rows
WHERE `upload_id = uploadId`; on success answer "upload deleted". The second
component is the ledger after the call, the third the (empty) list of
transport operations it performs: the function only talks to the database. -/
def DeleteUploadFile (ledger : List Upload) (uploadId : String)
    (dbErr : Option GoErr) : Except GoErr Message × List Upload × List String :=
  match dbErr with
  | some e => (.error e, ledger, [])
  | none => (.ok ⟨"upload deleted"⟩, ledger.filter (fun u => !(u.uploadId == uploadId)), [])

/-! ## generateRandomSalt (src/pkg/services/upload.go:280-292)

The function draws 32 random bytes, SHA-256 hashes them and base64-url
encodes the digest. SHA-256 (FIPS 180-4, as Go's crypto/sha256 computes it)
and base64 URL encoding (Go's base64.URLEncoding, `-`/`_` alphabet with `=`
padding) are implemented below over byte lists, words being `Nat` reduced
mod 2^32. -/

/-- Truncation to a 32-bit word. -/
def w32 (x : Nat) : Nat := x % 4294967296

/-- Right rotation of a 32-bit word. -/
def rotr32 (x n : Nat) : Nat := w32 ((x >>> n) ||| (x <<< (32 - n)))

def bigSigma0 (x : Nat) : Nat := (rotr32 x 2) ^^^ (rotr32 x 13) ^^^ (rotr32 x 22)

def bigSigma1 (x : Nat) : Nat := (rotr32 x 6) ^^^ (rotr32 x 11) ^^^ (rotr32 x 25)

def smallSigma0 (x : Nat) : Nat := (rotr32 x 7) ^^^ (rotr32 x 18) ^^^ (x >>> 3)

def smallSigma1 (x : Nat) : Nat := (rotr32 x 17) ^^^ (rotr32 x 19) ^^^ (x >>> 10)

def chF (x y z : Nat) : Nat := (x &&& y) ^^^ ((x ^^^ 0xffffffff) &&& z)

def majF (x y z : Nat) : Nat := (x &&& y) ^^^ (x &&& z) ^^^ (y &&& z)

/-- The 64 SHA-256 round constants (FIPS 180-4 §4.2.2, here in decimal). -/
def sha256K : List Nat :=
  [1116352408, 1899447441, 3049323471, 3921009573, 961987163, 1508970993,
   2453635748, 2870763221, 3624381080, 310598401, 607225278, 1426881987,
   1925078388, 2162078206, 2614888103, 3248222580, 3835390401, 4022224774,
   264347078, 604807628, 770255983, 1249150122, 1555081692, 1996064986,
   2554220882, 2821834349, 2952996808, 3210313671, 3336571891, 3584528711,
   113926993, 338241895, 666307205, 773529912, 1294757372, 1396182291,
   1695183700, 1986661051, 2177026350, 2456956037, 2730485921, 2820302411,
   3259730800, 3345764771, 3516065817, 3600352804, 4094571909, 275423344,
   430227734, 506948616, 659060556, 883997877, 958139571, 1322822218,
   1537002063, 1747873779, 1955562222, 2024104815, 2227730452, 2361852424,
   2428436474, 2756734187, 3204031479, 3329325298]

/-- SHA-256 padding: append 0x80, zeros to 56 mod 64, then the bit length
as eight big-endian bytes. -/
def padMessage (msg : List Nat) : List Nat :=
  let len := msg.length
  let bitLen := 8 * len
  let padZeros := (119 - (len % 64)) % 64
  msg ++ [0x80] ++ List.replicate padZeros 0 ++
    [(bitLen >>> 56) % 256, (bitLen >>> 48) % 256, (bitLen >>> 40) % 256,
     (bitLen >>> 32) % 256, (bitLen >>> 24) % 256, (bitLen >>> 16) % 256,
     (bitLen >>> 8) % 256, bitLen % 256]

/-- A padded message split into 64-byte blocks. -/
def chunks64 (l : List Nat) : List (List Nat) :=
  if _h : l.length = 0 then []
  else l.take 64 :: chunks64 (l.drop 64)
termination_by l.length
decreasing_by
  simp only [List.length_drop]
  omega

/-- Four bytes assembled big-endian into one word. -/
def bytesToWord (b0 b1 b2 b3 : Nat) : Nat :=
  ((b0 % 256) <<< 24) ||| ((b1 % 256) <<< 16) ||| ((b2 % 256) <<< 8) ||| (b3 % 256)

/-- The first 16 schedule words, read big-endian from the block. -/
def blockWords (block : List Nat) : List Nat :=
  (List.range 16).map fun i =>
    bytesToWord (block.getD (4 * i) 0) (block.getD (4 * i + 1) 0)
      (block.getD (4 * i + 2) 0) (block.getD (4 * i + 3) 0)

/-- The 64-word message schedule of one block. -/
def schedule (block : List Nat) : List Nat :=
  (List.range 48).foldl
    (fun w _ =>
      let t := w.length
      w ++ [w32 (smallSigma1 (w.getD (t - 2) 0) + w.getD (t - 7) 0 +
        smallSigma0 (w.getD (t - 15) 0) + w.getD (t - 16) 0)])
    (blockWords block)

/-- The eight working variables of the compression function. -/
structure Sha256State where
  a : Nat
  b : Nat
  c : Nat
  d : Nat
  e : Nat
  f : Nat
  g : Nat
  hh : Nat
  deriving DecidableEq, Repr

/-- One SHA-256 round. -/
def roundStep (k wv : Nat) (s : Sha256State) : Sha256State :=
  let t1 := w32 (s.hh + bigSigma1 s.e + chF s.e s.f s.g + k + wv)
  let t2 := w32 (bigSigma0 s.a + majF s.a s.b s.c)
  ⟨w32 (t1 + t2), s.a, s.b, s.c, w32 (s.d + t1), s.e, s.f, s.g⟩

/-- Compression of one 64-byte block into the running state. -/
def compressBlock (s : Sha256State) (block : List Nat) : Sha256State :=
  let ws := schedule block
  let t := (List.range 64).foldl
    (fun st i => roundStep (sha256K.getD i 0) (ws.getD i 0) st) s
  ⟨w32 (s.a + t.a), w32 (s.b + t.b), w32 (s.c + t.c), w32 (s.d + t.d),
   w32 (s.e + t.e), w32 (s.f + t.f), w32 (s.g + t.g), w32 (s.hh + t.hh)⟩

/-- The SHA-256 initial hash value (FIPS 180-4 §5.3.3, in decimal). -/
def sha256Init : Sha256State :=
  ⟨1779033703, 3144134277, 1013904242, 2773480762,
   1359893119, 2600822924, 528734635, 1541459225⟩

/-- One word rendered as four big-endian bytes. -/
def wordBytes (x : Nat) : List Nat :=
  [(x >>> 24) % 256, (x >>> 16) % 256, (x >>> 8) % 256, x % 256]

/-- SHA-256 of a byte list: a 32-byte digest. -/
def sha256 (msg : List Nat) : List Nat :=
  let s := (chunks64 (padMessage msg)).foldl compressBlock sha256Init
  wordBytes s.a ++ wordBytes s.b ++ wordBytes s.c ++ wordBytes s.d ++
    wordBytes s.e ++ wordBytes s.f ++ wordBytes s.g ++ wordBytes s.hh

/-- Go's base64.URLEncoding alphabet. -/
def b64Alphabet : List Char :=
  "ABCDEFGHIJKLMNOPQRSTUVWXYZabcdefghijklmnopqrstuvwxyz0123456789-_".toList

def b64Char (n : Nat) : Char := b64Alphabet.getD (n % 64) 'A'

/-- Base64 of a byte list, three bytes to four characters, `=`-padded. -/
def base64UrlChunks : List Nat → List Char
  | [] => []
  | [b0] =>
      [b64Char ((b0 % 256) >>> 2), b64Char (((b0 % 256) &&& 3) <<< 4), '=', '=']
  | [b0, b1] =>
      [b64Char ((b0 % 256) >>> 2),
       b64Char ((((b0 % 256) &&& 3) <<< 4) ||| ((b1 % 256) >>> 4)),
       b64Char (((b1 % 256) &&& 15) <<< 2), '=']
  | b0 :: b1 :: b2 :: rest =>
      b64Char ((b0 % 256) >>> 2) ::
      b64Char ((((b0 % 256) &&& 3) <<< 4) ||| ((b1 % 256) >>> 4)) ::
      b64Char ((((b1 % 256) &&& 15) <<< 2) ||| ((b2 % 256) >>> 6)) ::
      b64Char ((b2 % 256) &&& 63) :: base64UrlChunks rest

def base64UrlEncode (bytes : List Nat) : String :=
  String.mk (base64UrlChunks bytes)

/-- generateRandomSalt (src/pkg/services/upload.go:280-292): `randRes` is
what `crypto/rand.Read` produced for the 32-byte buffer — the filled buffer,
or an error, which the function propagates with an empty string. On success
the salt is the base64-url encoding of the SHA-256 digest of the bytes. -/
def generateRandomSalt (randRes : Except GoErr (List Nat)) : Except GoErr String :=
  match randRes with
  | .error e => .error e
  | .ok bs => .ok (base64UrlEncode (sha256 bs))

/-- The value bound at the call site `salt, _ = generateRandomSalt()`
(src/pkg/services/upload.go:190): the error return is discarded, so a failed
generation leaves the salt at its zero value "". -/
def saltOf (randRes : Except GoErr (List Nat)) : String :=
  match generateRandomSalt randRes with
  | .ok s => s
  | .error _ => ""

/-! ## UploadFile (src/pkg/services/upload.go:100-278)

The orchestrator is a pure function of the request, of an environment
record holding one field per collaborator call site (what the database,
the transport and the random source answered in this execution), and of
the ledger at entry. Its value is the returned result together with the
effects the call performed: the ledger after the call, the remote message
ids it asked the transport to delete, and the transport operations it
issued, in order. -/

/-- schemas.UploadQuery — the bound query parameters of the request. -/
structure UploadQuery where
  partName : String
  fileName : String
  partNo : Int
  channelId : Int
  encrypted : Bool
  deriving DecidableEq, Repr

/-- types.AppError as upload.go builds it: the error plus an HTTP-style
status code, 0 when the source sets none (`&types.AppError{Error: err}`). -/
structure AppError where
  err : GoErr
  code : Nat
  deriving DecidableEq, Repr

/-- One update of the send confirmation (`res.(*tg.Updates).Updates`):
either a new-channel-message update carrying the transport-assigned message
id, or any other update kind. -/
inductive UpdateItem where
  | newChannelMessage (msgId : Int)
  | other
  deriving DecidableEq, Repr

/-- The loop at src/pkg/services/upload.go:223-229: the first
UpdateNewChannelMessage of the confirmation, if any (`message` stays nil
otherwise). -/
def findNewChannelMessage : List UpdateItem → Option Int
  | [] => none
  | .newChannelMessage msgId :: _ => some msgId
  | .other :: rest => findNewChannelMessage rest

/-- tg.InputChannel — the resolved destination channel. -/
structure ChannelInfo where
  channelId : Int
  accessHash : Int
  deriving DecidableEq, Repr

/-- What every collaborator call site answered during one execution of
UploadFile. The fields `newCipher` and `encryptData` mirror the calls at
src/pkg/services/upload.go:191-193 whose error returns the source binds to
`_`; `randBytes` is the buffer `crypto/rand.Read` filled, or its error. -/
structure UploadEnv where
  bindResult : Except GoErr UploadQuery
  defaultChannel : Except GoErr Int
  botsTokens : Except GoErr (List String)
  authClient : Except GoErr Unit
  botClient : Except GoErr Unit
  runAuthErr : Option GoErr
  getChannel : Except GoErr ChannelInfo
  randBytes : Except GoErr (List Nat)
  newCipher : Except GoErr Unit
  encryptData : Except GoErr Unit
  uploadRes : Except GoErr Unit
  sendRes : Except GoErr (List UpdateItem)
  persistErr : Option GoErr
  verifyRes : Except GoErr (List Int)
  deriving Repr

/-- The request-scoped inputs of UploadFile beyond the bound query:
the session id path parameter, the authenticated user, the request body
length, and the clock value the persisted row's created_at receives. -/
structure UploadRequest where
  uploadId : String
  userId : Int
  contentLength : Int
  now : Int
  deriving DecidableEq, Repr

/-- How one execution of UploadFile ends: a part descriptor, a typed error,
or a Go runtime panic (a nil pointer dereference). -/
inductive UploadResult where
  | ok (out : UploadPartOut)
  | fail (e : AppError)
  | crash
  deriving DecidableEq, Repr

/-- The effects one execution of UploadFile performed. -/
structure Effects where
  ledger : List Upload
  deletedMsgIds : List Int
  transportCalls : List String
  deriving DecidableEq, Repr

/-- Modelled from the spec: internal/crypt is not under src/. §4.4 requires
`encryptedSize` to be a deterministic size map with a fixed overhead
("a constant per-part header/padding"), computable before encryption. -/
def encOverhead : Int := 32

/-- Modelled from the spec: the declared ciphertext length for a plaintext
length (`crypt.EncryptedSize`, src/pkg/services/upload.go:192). -/
def encryptedSize (plaintextSize : Int) : Int := plaintextSize + encOverhead

/-- Channel resolution (src/pkg/services/upload.go:132-139): the explicit
query value, or the per-user default channel when the query carries 0. -/
def resolveChannel (q : UploadQuery) (env : UploadEnv) : Except GoErr Int :=
  if q.channelId == 0 then env.defaultChannel else .ok q.channelId

/-- Client resolution (src/pkg/services/upload.go:147-163): the user-session
client when no bot tokens exist for the channel, else a bot client picked by
the worker rotation. -/
def resolveClient (tokens : List String) (env : UploadEnv) : Except GoErr Unit :=
  if tokens.isEmpty then env.authClient else env.botClient

/-- The closure passed to tgc.RunWithAuth (src/pkg/services/upload.go:178-265):
fetch the channel; if encrypting, compute the salt (its generation error is
discarded, as are the cipher-construction and stream-wrapping errors, bound
to `_` in the source) and expand the declared size; upload; send; take the
first new-channel-message update (`message.ID` dereferences nil — a crash —
when there is none); fail on a zero id; persist, compensating with a delete
of the just-sent message on persistence failure (the delete's own outcome is
not even bound); then verify by re-fetching the message, where only an empty
(non-nil) result — not a fetch error, which is bound to `_` — fails the
call. -/
def runUpload (env : UploadEnv) (req : UploadRequest) (q : UploadQuery)
    (channelId : Int) (ledger : List Upload) : UploadResult × Effects :=
  match env.getChannel with
  | .error e => (.fail ⟨e, 0⟩, ⟨ledger, [], ["GetChannelById"]⟩)
  | .ok _channel =>
    let salt : String := if q.encrypted then saltOf env.randBytes else ""
    let fileSize : Int :=
      if q.encrypted then encryptedSize req.contentLength else req.contentLength
    match env.uploadRes with
    | .error e => (.fail ⟨e, 0⟩, ⟨ledger, [], ["GetChannelById", "Upload"]⟩)
    | .ok _ =>
      match env.sendRes with
      | .error e => (.fail ⟨e, 0⟩, ⟨ledger, [], ["GetChannelById", "Upload", "SendMedia"]⟩)
      | .ok updates =>
        match findNewChannelMessage updates with
        | none => (.crash, ⟨ledger, [], ["GetChannelById", "Upload", "SendMedia"]⟩)
        | some msgId =>
          if msgId == 0 then
            (.fail ⟨"upload failed", 0⟩,
              ⟨ledger, [], ["GetChannelById", "Upload", "SendMedia"]⟩)
          else
            let partUpload : Upload :=
              ⟨q.partName, req.uploadId, msgId, channelId, fileSize, q.partNo,
                req.userId, q.encrypted, salt, req.now⟩
            match env.persistErr with
            | some e =>
              if msgId == 0 then
                (.fail ⟨e, 0⟩, ⟨ledger, [], ["GetChannelById", "Upload", "SendMedia"]⟩)
              else
                (.fail ⟨e, 0⟩,
                  ⟨ledger, [msgId],
                    ["GetChannelById", "Upload", "SendMedia", "DeleteMessages"]⟩)
            | none =>
              match env.verifyRes with
              | .error _ =>
                (.ok (toUploadOut partUpload),
                  ⟨ledger ++ [partUpload], [],
                    ["GetChannelById", "Upload", "SendMedia", "GetMessages"]⟩)
              | .ok msgs =>
                if msgs.isEmpty then
                  (.fail ⟨"upload failed", 0⟩,
                    ⟨ledger ++ [partUpload], [],
                      ["GetChannelById", "Upload", "SendMedia", "GetMessages"]⟩)
                else
                  (.ok (toUploadOut partUpload),
                    ⟨ledger ++ [partUpload], [],
                      ["GetChannelById", "Upload", "SendMedia", "GetMessages"]⟩)

/-- UploadFile (src/pkg/services/upload.go:100-278): bind the query (a bind
failure is a 400); reject an encrypted request outright with a 400 when the
configured encryption key is empty; resolve channel, bot tokens and client
(each failure an AppError with unset code); then run the closure under
RunWithAuth, whose own failure — and any error the closure returns — comes
back as an AppError with unset code. -/
def UploadFile (cnf : UploadsConfig) (env : UploadEnv) (req : UploadRequest)
    (ledger : List Upload) : UploadResult × Effects :=
  match env.bindResult with
  | .error e => (.fail ⟨e, 400⟩, ⟨ledger, [], []⟩)
  | .ok q =>
    if q.encrypted && (cnf.encryptionKey == "") then
      (.fail ⟨"encryption key not found", 400⟩, ⟨ledger, [], []⟩)
    else
      match resolveChannel q env with
      | .error e => (.fail ⟨e, 0⟩, ⟨ledger, [], []⟩)
      | .ok channelId =>
        match env.botsTokens with
        | .error e => (.fail ⟨e, 0⟩, ⟨ledger, [], []⟩)
        | .ok tokens =>
          match resolveClient tokens env with
          | .error e => (.fail ⟨e, 0⟩, ⟨ledger, [], []⟩)
          | .ok _ =>
            match env.runAuthErr with
            | some e => (.fail ⟨e, 0⟩, ⟨ledger, [], []⟩)
            | none => runUpload env req q channelId ledger

/-! ## The client factory (src/utils/tgc/tgc.go) -/

namespace tgc

/-- The configuration values tgc.New reads (utils.GetConfig()). -/
structure AppConfig where
  appId : Int
  appHash : String
  deriving DecidableEq, Repr

/-- cenkalti/backoff v4 ExponentialBackOff, its float fields carried as
rationals (Multiplier 1.5 is 3/2, RandomizationFactor 0.5 is 1/2);
durations in seconds except the initial interval (500ms). -/
structure ExponentialBackOff where
  initialIntervalMs : Nat
  randomizationFactor : ℚ
  multiplier : ℚ
  maxIntervalSec : Nat
  maxElapsedTimeSec : Nat
  deriving DecidableEq, Repr

/-- backoff.NewExponentialBackOff(): the library defaults (500ms initial
interval, factor 0.5, multiplier 1.5, 60s max interval, 15min max elapsed). -/
def newExponentialBackOff : ExponentialBackOff :=
  { initialIntervalMs := 500
    randomizationFactor := 1 / 2
    multiplier := 3 / 2
    maxIntervalSec := 60
    maxElapsedTimeSec := 900 }

/-- telegram.Options as tgc.New fills it (src/utils/tgc/tgc.go:43-61);
device, session storage, clock and the middleware chain are carried by the
collaborators and not modelled beyond their presence. -/
structure TelegramOptions where
  reconnectionBackoff : ExponentialBackOff
  retryIntervalSec : Nat
  maxRetries : Nat
  dialTimeoutSec : Nat
  noUpdates : Bool
  middlewares : List String
  deriving DecidableEq, Repr

/-- telegram.NewClient's inputs: the app credentials and the options. -/
structure TelegramClient where
  appId : Int
  appHash : String
  opts : TelegramOptions
  deriving DecidableEq, Repr

/-- tgc.New (src/utils/tgc/tgc.go:31-64): every client is built with a
reconnection backoff that is the library default overridden to multiplier
1.1 (11/10) and max elapsed time 120s, a 5s retry interval, 5 max retries,
a 10s dial timeout, and updates off exactly when no handler was passed. -/
def New (config : AppConfig) (hasHandler : Bool) (middlewares : List String) :
    TelegramClient :=
  let b := { newExponentialBackOff with multiplier := 11 / 10, maxElapsedTimeSec := 120 }
  { appId := config.appId
    appHash := config.appHash
    opts :=
      { reconnectionBackoff := b
        retryIntervalSec := 5
        maxRetries := 5
        dialTimeoutSec := 10
        noUpdates := !hasHandler
        middlewares := middlewares } }

end tgc

/-! ## Concrete executions

A baseline request and environment in which every collaborator answers
successfully, and variations of it, used to exhibit concrete executions of
the embedded code. -/

/-- A part-1 upload request of session "upload-abc" by user 42, one million
body bytes, clock at 1000. -/
def baseReq : UploadRequest := ⟨"upload-abc", 42, 1000000, 1000⟩

/-- An unencrypted query for part 1 aimed at channel 100. -/
def baseQuery : UploadQuery := ⟨"part.bin", "file.bin", 1, 100, false⟩

/-- The encrypted variant of the baseline query. -/
def encQuery : UploadQuery := ⟨"part.bin", "file.bin", 1, 100, true⟩

/-- A configuration with an encryption key set and a 10-unit retention. -/
def baseCnf : UploadsConfig := ⟨"masterkey", 10⟩

/-- The baseline environment: every collaborator answers successfully; the
send confirmation carries one new-channel-message update with id 777, and
the verification re-fetch finds that message. -/
def okEnv : UploadEnv :=
  { bindResult := .ok baseQuery
    defaultChannel := .ok 100
    botsTokens := .ok ["5000:bottoken"]
    authClient := .ok ()
    botClient := .ok ()
    runAuthErr := none
    getChannel := .ok ⟨100, 999⟩
    randBytes := .ok (List.replicate 32 7)
    newCipher := .ok ()
    encryptData := .ok ()
    uploadRes := .ok ()
    sendRes := .ok [.newChannelMessage 777]
    persistErr := none
    verifyRes := .ok [777] }

/-- The ledger row the baseline execution persists. -/
def baseRec : Upload :=
  ⟨"part.bin", "upload-abc", 777, 100, 1000000, 1, 42, false, "", 1000⟩

/-- The baseline with a verification re-fetch that finds no message. -/
def verifyEmptyEnv : UploadEnv := { okEnv with verifyRes := .ok [] }

/-- The baseline with a failing verification re-fetch. -/
def fetchErrEnv : UploadEnv := { okEnv with verifyRes := .error "fetch failed" }

/-- An encrypted upload in which salt generation, cipher construction,
stream wrapping and the verification re-fetch all fail. -/
def discardEnv : UploadEnv :=
  { okEnv with
    bindResult := .ok encQuery
    randBytes := .error "entropy exhausted"
    newCipher := .error "cipher construction failed"
    encryptData := .error "stream wrapping failed"
    verifyRes := .error "fetch failed" }

/-- The baseline with a failing ledger write. -/
def persistFailEnv : UploadEnv := { okEnv with persistErr := some "db down" }

/-- The baseline turned into an encrypted upload, everything succeeding. -/
def encOkEnv : UploadEnv := { okEnv with bindResult := .ok encQuery }

/-- The salt the encrypted baseline generates from its 32 random bytes. -/
def encSalt : String := base64UrlEncode (sha256 (List.replicate 32 7))

/-- The ledger row the encrypted baseline persists. -/
def encRec : Upload :=
  ⟨"part.bin", "upload-abc", 777, 100, encryptedSize 1000000, 1, 42, true, encSalt, 1000⟩

/-- An encrypted upload whose random source fails; everything else succeeds. -/
def entropyFailEnv : UploadEnv :=
  { okEnv with bindResult := .ok encQuery, randBytes := .error "entropy exhausted" }

/-- The row the entropy-failure execution persists: encrypted, empty salt. -/
def encEmptySaltRec : Upload :=
  ⟨"part.bin", "upload-abc", 777, 100, encryptedSize 1000000, 1, 42, true, "", 1000⟩

/-- A send confirmation with no new-channel-message update at all. -/
def absentUpdateEnv : UploadEnv := { okEnv with sendRes := .ok [.other] }

/-- A send confirmation whose new-channel-message update carries id 0. -/
def zeroIdEnv : UploadEnv := { okEnv with sendRes := .ok [.newChannelMessage 0] }

/-- A configuration with no encryption master key. -/
def noKeyCnf : UploadsConfig := ⟨"", 10⟩

/-- A ledger row of session "u1" created at 989 — older than the retention
window of `baseCnf` (10) at clock 1000: 989 = 1000 − (10 + 1). -/
def expiredRow : Upload := ⟨"p1", "u1", 5, 100, 10, 1, 42, false, "", 989⟩

/-- A ledger row belonging to a different session. -/
def otherRow : Upload := ⟨"px", "other-session", 9, 100, 5, 2, 7, false, "", 995⟩

/-! ## Helper lemmas -/

/-- A SHA-256 digest has 32 bytes, whatever the message. -/
theorem sha256_length (msg : List Nat) : (sha256 msg).length = 32 := by
  simp [sha256, wordBytes]

/-- Base64 of at least one byte yields at least one character. -/
theorem base64UrlChunks_ne_nil : ∀ bytes : List Nat, bytes ≠ [] →
    base64UrlChunks bytes ≠ []
  | [], h => absurd rfl h
  | [_], _ => by simp [base64UrlChunks]
  | [_, _], _ => by simp [base64UrlChunks]
  | _ :: _ :: _ :: _, _ => by simp [base64UrlChunks]

/-- Base64 of a non-empty byte list is a non-empty string. -/
theorem base64UrlEncode_ne_empty (bytes : List Nat) (h : bytes ≠ []) :
    base64UrlEncode bytes ≠ "" := by
  intro hcontra
  have hdata : (base64UrlEncode bytes).data = ("" : String).data :=
    congrArg String.data hcontra
  simp only [base64UrlEncode] at hdata
  exact base64UrlChunks_ne_nil bytes h (by simpa using hdata)

/-- A successfully generated salt is never the empty string. -/
theorem saltOf_ok_ne_empty (bs : List Nat) : saltOf (.ok bs) ≠ "" := by
  have h32 := sha256_length bs
  have hne : sha256 bs ≠ [] := by
    intro h
    rw [h] at h32
    simp at h32
  simpa [saltOf, generateRandomSalt] using base64UrlEncode_ne_empty _ hne

/-- When binding, the key check, channel, token and client resolution and
authentication all succeed, UploadFile is the RunWithAuth closure. -/
theorem uploadFile_run (cnf : UploadsConfig) (env : UploadEnv) (req : UploadRequest)
    (ledger : List Upload) (q : UploadQuery) (channelId : Int) (tokens : List String)
    (hbind : env.bindResult = .ok q)
    (hkey : (q.encrypted && (cnf.encryptionKey == "")) = false)
    (hch : resolveChannel q env = .ok channelId)
    (htok : env.botsTokens = .ok tokens)
    (hcl : resolveClient tokens env = .ok ())
    (hauth : env.runAuthErr = none) :
    UploadFile cnf env req ledger = runUpload env req q channelId ledger := by
  simp [UploadFile, hbind, hkey, hch, htok, hcl, hauth]

/-- Inversion: a returning UploadFile execution reached the closure. -/
theorem uploadFile_ok_inv (cnf : UploadsConfig) (env : UploadEnv) (req : UploadRequest)
    (ledger : List Upload) (q : UploadQuery) (out : UploadPartOut) (eff : Effects)
    (hbind : env.bindResult = .ok q)
    (hrun : UploadFile cnf env req ledger = (.ok out, eff)) :
    ∃ channelId, runUpload env req q channelId ledger = (.ok out, eff) := by
  cases hk : q.encrypted && (cnf.encryptionKey == "") with
  | true => simp [UploadFile, hbind, hk] at hrun
  | false =>
    rcases hch : resolveChannel q env with e | channelId
    · simp [UploadFile, hbind, hk, hch] at hrun
    · rcases htok : env.botsTokens with e | tokens
      · simp [UploadFile, hbind, hk, hch, htok] at hrun
      · rcases hcl : resolveClient tokens env with e | u
        · simp [UploadFile, hbind, hk, hch, htok, hcl] at hrun
        · rcases hauth : env.runAuthErr with _ | e
          · refine ⟨channelId, ?_⟩
            simpa [UploadFile, hbind, hk, hch, htok, hcl, hauth] using hrun
          · simp [UploadFile, hbind, hk, hch, htok, hcl, hauth] at hrun

/-- Inversion: a returning closure execution persisted exactly one row, of
the expanded size when encrypting, with the non-zero transport id, and with
the generated salt when encrypting and the random source answered. -/
theorem runUpload_ok_inv (env : UploadEnv) (req : UploadRequest) (q : UploadQuery)
    (channelId : Int) (ledger : List Upload) (out : UploadPartOut) (eff : Effects)
    (henc : q.encrypted = true)
    (hrun : runUpload env req q channelId ledger = (.ok out, eff)) :
    ∃ rec : Upload, eff.ledger = ledger ++ [rec] ∧
      rec.size = encryptedSize req.contentLength ∧
      rec.partId ≠ 0 ∧
      ∀ bs, env.randBytes = .ok bs → rec.salt ≠ "" := by
  rcases hgc : env.getChannel with e | ch
  · simp [runUpload, hgc] at hrun
  · rcases hup : env.uploadRes with e | u
    · simp [runUpload, hgc, hup] at hrun
    · rcases hsend : env.sendRes with e | updates
      · simp [runUpload, hgc, hup, hsend] at hrun
      · rcases hfind : findNewChannelMessage updates with _ | msgId
        · simp [runUpload, hgc, hup, hsend, hfind] at hrun
        · cases hz : msgId == 0 with
          | true => simp [runUpload, hgc, hup, hsend, hfind, hz] at hrun
          | false =>
            refine ⟨⟨q.partName, req.uploadId, msgId, channelId,
              encryptedSize req.contentLength, q.partNo, req.userId, true,
              saltOf env.randBytes, req.now⟩, ?_, rfl, by simpa using hz, ?_⟩
            · rcases hp : env.persistErr with _ | e
              · rcases hv : env.verifyRes with e4 | msgs
                · have := hrun
                  simp [runUpload, hgc, hup, hsend, hfind, hz, hp, hv, henc] at this
                  rw [← this.2]
                · cases hemp : msgs.isEmpty with
                  | true =>
                    simp [runUpload, hgc, hup, hsend, hfind, hz, hp, hv, hemp, henc] at hrun
                  | false =>
                    have := hrun
                    simp [runUpload, hgc, hup, hsend, hfind, hz, hp, hv, hemp, henc] at this
                    rw [← this.2]
              · simp [runUpload, hgc, hup, hsend, hfind, hz, hp] at hrun
            · intro bs hbs
              rw [hbs]
              exact saltOf_ok_ne_empty bs

/-! ## The claims -/

/-- C1 counterexample: with a send confirmation carrying non-zero message id
777, a successful persist and a verification re-fetch that returns an empty
result, UploadFile does return the upload-failure error — but the Part
Record for (upload-abc, 1) has been persisted (the ledger grew from [] to
[baseRec]), refuting the claim that the ledger is unchanged by the failed
call: the source persists (line 247) before it verifies (line 255) and does
not roll the row back. -/
theorem uploadFile_verifyEmpty_cex :
    (UploadFile baseCnf verifyEmptyEnv baseReq []).1 = .fail ⟨"upload failed", 0⟩ ∧
    (UploadFile baseCnf verifyEmptyEnv baseReq []).2.ledger = [baseRec] ∧
    baseRec.uploadId = baseReq.uploadId ∧ baseRec.partNo = 1 :=
  ⟨rfl, rfl, rfl, rfl⟩

/-- C1 (amended): when the transport confirms the send with a non-zero
message id, the persist succeeds and the subsequent existence check returns
an empty result, UploadFile returns the upload-failure error, but the Part
Record for (uploadId, partNo) persisted before the check remains in the
ledger — the ledger is extended, not unchanged. -/
theorem uploadFile_verifyEmpty_keeps_record (cnf : UploadsConfig) (env : UploadEnv)
    (req : UploadRequest) (ledger : List Upload) (q : UploadQuery) (channelId : Int)
    (tokens : List String) (ch : ChannelInfo) (updates : List UpdateItem) (msgId : Int)
    (hbind : env.bindResult = .ok q)
    (hkey : (q.encrypted && (cnf.encryptionKey == "")) = false)
    (hch : resolveChannel q env = .ok channelId)
    (htok : env.botsTokens = .ok tokens)
    (hcl : resolveClient tokens env = .ok ())
    (hauth : env.runAuthErr = none)
    (hgc : env.getChannel = .ok ch)
    (hup : env.uploadRes = .ok ())
    (hsend : env.sendRes = .ok updates)
    (hfind : findNewChannelMessage updates = some msgId)
    (hnz : (msgId == 0) = false)
    (hpersist : env.persistErr = none)
    (hverify : env.verifyRes = .ok []) :
    (UploadFile cnf env req ledger).1 = .fail ⟨"upload failed", 0⟩ ∧
    (UploadFile cnf env req ledger).2.ledger = ledger ++
      [⟨q.partName, req.uploadId, msgId, channelId,
        (if q.encrypted then encryptedSize req.contentLength else req.contentLength),
        q.partNo, req.userId, q.encrypted,
        (if q.encrypted then saltOf env.randBytes else ""), req.now⟩] := by
  rw [uploadFile_run cnf env req ledger q channelId tokens hbind hkey hch htok hcl hauth]
  simp [runUpload, hgc, hup, hsend, hfind, hnz, hpersist, hverify]

/-- C1 witness: the amended claim at the concrete verification-empty
execution. -/
theorem uploadFile_verifyEmpty_keeps_record_witness :
    (UploadFile baseCnf verifyEmptyEnv baseReq []).1 = .fail ⟨"upload failed", 0⟩ ∧
    (UploadFile baseCnf verifyEmptyEnv baseReq []).2.ledger = [] ++ [baseRec] :=
  uploadFile_verifyEmpty_keeps_record baseCnf verifyEmptyEnv baseReq [] baseQuery 100
    ["5000:bottoken"] ⟨100, 999⟩ [.newChannelMessage 777] 777
    rfl rfl rfl rfl rfl rfl rfl rfl rfl rfl rfl rfl rfl

/-- C2: the retention filter of GetUploadFileById is
`created_at < now + retention` (source line 56 adds the retention instead of
subtracting it), so a row with createdAt = now − (retention + 1s) — expired
per the spec — is returned, not omitted: with retention 10 and the clock at
1000, the row created at 989 comes back. -/
theorem getUploadFileById_includes_expired_row :
    GetUploadFileById baseCnf [expiredRow] "u1" 1000 none =
      .ok ⟨[toUploadOut expiredRow]⟩ :=
  rfl

/-- C3 counterexample: every collaborator succeeds except the verification
re-fetch, which returns an error — and UploadFile succeeds anyway: the
re-fetch error (bound to `_` at source line 255) is silently discarded, not
propagated. -/
theorem uploadFile_discarded_error_cex :
    (UploadFile baseCnf fetchErrEnv baseReq []).1 = .ok (toUploadOut baseRec) ∧
    (UploadFile baseCnf fetchErrEnv baseReq []).2.ledger = [baseRec] :=
  ⟨rfl, rfl⟩

/-- C3 (amended): errors from channel fetch, transport upload, send and
ledger persist are propagated as the operation's error, but errors from
salt generation, cipher construction, stream wrapping and the verification
re-fetch are silently discarded — the operation succeeds even when all four
fail (only an empty, non-nil verification result fails it). -/
theorem uploadFile_error_propagation (cnf : UploadsConfig) (env : UploadEnv)
    (req : UploadRequest) (ledger : List Upload) (q : UploadQuery) (channelId : Int)
    (tokens : List String)
    (hbind : env.bindResult = .ok q)
    (hkey : (q.encrypted && (cnf.encryptionKey == "")) = false)
    (hch : resolveChannel q env = .ok channelId)
    (htok : env.botsTokens = .ok tokens)
    (hcl : resolveClient tokens env = .ok ())
    (hauth : env.runAuthErr = none) :
    (∀ e, env.getChannel = .error e →
      (UploadFile cnf env req ledger).1 = .fail ⟨e, 0⟩) ∧
    (∀ e ch, env.getChannel = .ok ch → env.uploadRes = .error e →
      (UploadFile cnf env req ledger).1 = .fail ⟨e, 0⟩) ∧
    (∀ e ch, env.getChannel = .ok ch → env.uploadRes = .ok () →
      env.sendRes = .error e →
      (UploadFile cnf env req ledger).1 = .fail ⟨e, 0⟩) ∧
    (∀ e ch updates msgId, env.getChannel = .ok ch → env.uploadRes = .ok () →
      env.sendRes = .ok updates → findNewChannelMessage updates = some msgId →
      (msgId == 0) = false → env.persistErr = some e →
      (UploadFile cnf env req ledger).1 = .fail ⟨e, 0⟩) ∧
    (∀ e1 e2 e3 e4 ch updates msgId, env.getChannel = .ok ch →
      env.uploadRes = .ok () → env.sendRes = .ok updates →
      findNewChannelMessage updates = some msgId → (msgId == 0) = false →
      env.persistErr = none →
      env.randBytes = .error e1 → env.newCipher = .error e2 →
      env.encryptData = .error e3 → env.verifyRes = .error e4 →
      ∃ out, (UploadFile cnf env req ledger).1 = .ok out) := by
  have hrun := uploadFile_run cnf env req ledger q channelId tokens
    hbind hkey hch htok hcl hauth
  refine ⟨?_, ?_, ?_, ?_, ?_⟩
  · intro e hgc
    rw [hrun]
    simp [runUpload, hgc]
  · intro e ch hgc hup
    rw [hrun]
    simp [runUpload, hgc, hup]
  · intro e ch hgc hup hsend
    rw [hrun]
    simp [runUpload, hgc, hup, hsend]
  · intro e ch updates msgId hgc hup hsend hfind hnz hp
    rw [hrun]
    simp [runUpload, hgc, hup, hsend, hfind, hnz, hp]
  · intro e1 e2 e3 e4 ch updates msgId hgc hup hsend hfind hnz hp hr hc hd hv
    rw [hrun]
    simp [runUpload, hgc, hup, hsend, hfind, hnz, hp, hv]

/-- C3 witness: the discarded-error part of the amended claim at a concrete
encrypted execution in which all four discarded steps fail. -/
theorem uploadFile_error_propagation_witness :
    ∃ out, (UploadFile baseCnf discardEnv baseReq []).1 = .ok out :=
  (uploadFile_error_propagation baseCnf discardEnv baseReq [] encQuery 100
      ["5000:bottoken"] rfl rfl rfl rfl rfl rfl).2.2.2.2
    "entropy exhausted" "cipher construction failed" "stream wrapping failed"
    "fetch failed" ⟨100, 999⟩ [.newChannelMessage 777] 777
    rfl rfl rfl rfl rfl rfl rfl rfl rfl rfl

/-- C4: when the transmit succeeds (non-zero transport id) and the ledger
write fails, UploadFile issues the compensating delete with exactly the
just-assigned message id, leaves the ledger unchanged, and returns the
persistence error (code unset), not the delete's outcome — the source does
not even bind the delete call's return values. -/
theorem uploadFile_persistFail_compensating_delete (cnf : UploadsConfig)
    (env : UploadEnv) (req : UploadRequest) (ledger : List Upload) (q : UploadQuery)
    (channelId : Int) (tokens : List String) (ch : ChannelInfo)
    (updates : List UpdateItem) (msgId : Int) (e : GoErr)
    (hbind : env.bindResult = .ok q)
    (hkey : (q.encrypted && (cnf.encryptionKey == "")) = false)
    (hch : resolveChannel q env = .ok channelId)
    (htok : env.botsTokens = .ok tokens)
    (hcl : resolveClient tokens env = .ok ())
    (hauth : env.runAuthErr = none)
    (hgc : env.getChannel = .ok ch)
    (hup : env.uploadRes = .ok ())
    (hsend : env.sendRes = .ok updates)
    (hfind : findNewChannelMessage updates = some msgId)
    (hnz : (msgId == 0) = false)
    (hpersist : env.persistErr = some e) :
    UploadFile cnf env req ledger =
      (.fail ⟨e, 0⟩,
        ⟨ledger, [msgId], ["GetChannelById", "Upload", "SendMedia", "DeleteMessages"]⟩) := by
  rw [uploadFile_run cnf env req ledger q channelId tokens hbind hkey hch htok hcl hauth]
  simp [runUpload, hgc, hup, hsend, hfind, hnz, hpersist]

/-- C4 witness: the claim at the concrete persistence-failure execution. -/
theorem uploadFile_persistFail_compensating_delete_witness :
    UploadFile baseCnf persistFailEnv baseReq [] =
      (.fail ⟨"db down", 0⟩,
        ⟨[], [777], ["GetChannelById", "Upload", "SendMedia", "DeleteMessages"]⟩) :=
  uploadFile_persistFail_compensating_delete baseCnf persistFailEnv baseReq []
    baseQuery 100 ["5000:bottoken"] ⟨100, 999⟩ [.newChannelMessage 777] 777 "db down"
    rfl rfl rfl rfl rfl rfl rfl rfl rfl rfl rfl rfl

/-- C5 counterexample: an encrypted upload whose random source fails —
everything else succeeding — completes successfully and persists a Part
Record with an empty salt, refuting the claim that every successful
encrypted upload persists a non-empty salt: the salt-generation error is
discarded at source line 190. -/
theorem uploadFile_encrypted_empty_salt_cex :
    (UploadFile baseCnf entropyFailEnv baseReq []).1 = .ok (toUploadOut encEmptySaltRec) ∧
    (UploadFile baseCnf entropyFailEnv baseReq []).2.ledger = [encEmptySaltRec] ∧
    encEmptySaltRec.salt = "" ∧ encEmptySaltRec.encrypted = true :=
  ⟨rfl, rfl, rfl, rfl⟩

/-- C5 (amended): every successful encrypted upload of a part with
plaintext length P persists exactly one Part Record, with size equal to
encryptedSize(P) and a non-zero remote message identifier; its salt is
non-empty provided the salt generation succeeded (a failed generation is
silently ignored and persists an empty salt). -/
theorem uploadFile_encrypted_success_fields (cnf : UploadsConfig) (env : UploadEnv)
    (req : UploadRequest) (ledger : List Upload) (q : UploadQuery)
    (out : UploadPartOut) (eff : Effects)
    (hbind : env.bindResult = .ok q) (henc : q.encrypted = true)
    (hrun : UploadFile cnf env req ledger = (.ok out, eff)) :
    ∃ rec : Upload, eff.ledger = ledger ++ [rec] ∧
      rec.size = encryptedSize req.contentLength ∧
      rec.partId ≠ 0 ∧
      ∀ bs, env.randBytes = .ok bs → rec.salt ≠ "" := by
  obtain ⟨channelId, hrun'⟩ := uploadFile_ok_inv cnf env req ledger q out eff hbind hrun
  exact runUpload_ok_inv env req q channelId ledger out eff henc hrun'

/-- C5 witness: the amended claim at the concrete successful encrypted
execution. -/
theorem uploadFile_encrypted_success_fields_witness :
    ∃ rec : Upload, (UploadFile baseCnf encOkEnv baseReq []).2.ledger = [] ++ [rec] ∧
      rec.size = encryptedSize 1000000 ∧
      rec.partId ≠ 0 ∧
      ∀ bs, encOkEnv.randBytes = .ok bs → rec.salt ≠ "" :=
  uploadFile_encrypted_success_fields baseCnf encOkEnv baseReq [] encQuery
    (toUploadOut encRec)
    ⟨[encRec], [], ["GetChannelById", "Upload", "SendMedia", "GetMessages"]⟩
    rfl rfl rfl

/-- C6: a zero transport-assigned id does fail the upload with the intended
"upload failed" error — but a confirmation with no new-channel-message
update at all leaves the source's `message` pointer nil and line 231
(`message.ID`) dereferences it: the execution crashes instead of returning
an error, contradicting the claim that the missing-identifier case never
causes a crash. -/
theorem uploadFile_absent_update_crash :
    (UploadFile baseCnf absentUpdateEnv baseReq []).1 = .crash ∧
    (UploadFile baseCnf zeroIdEnv baseReq []).1 = .fail ⟨"upload failed", 0⟩ :=
  ⟨rfl, rfl⟩

/-- C7: an encrypted upload request while the configured encryption master
key is empty is rejected with the HTTP-400 configuration error before any
transport call, compensation or ledger write — the effects are empty, so in
particular the part is never transmitted as plaintext. -/
theorem uploadFile_missing_key_rejected (cnf : UploadsConfig) (env : UploadEnv)
    (req : UploadRequest) (ledger : List Upload) (q : UploadQuery)
    (hbind : env.bindResult = .ok q) (henc : q.encrypted = true)
    (hkey : cnf.encryptionKey = "") :
    UploadFile cnf env req ledger =
      (.fail ⟨"encryption key not found", 400⟩, ⟨ledger, [], []⟩) := by
  simp [UploadFile, hbind, henc, hkey]

/-- C7 witness: the claim at a concrete encrypted request with no key. -/
theorem uploadFile_missing_key_rejected_witness :
    UploadFile noKeyCnf encOkEnv baseReq [] =
      (.fail ⟨"encryption key not found", 400⟩, ⟨[], [], []⟩) :=
  uploadFile_missing_key_rejected noKeyCnf encOkEnv baseReq [] encQuery rfl rfl rfl

/-- C8: DeleteUploadFile removes exactly the rows whose uploadId equals the
given session id — membership in the resulting ledger is membership in the
old one with a different uploadId, regardless of age or owning user — makes
no transport call, and answers "upload deleted". -/
theorem deleteUploadFile_removes_exactly_session (ledger : List Upload)
    (uploadId : String) :
    (DeleteUploadFile ledger uploadId none).1 = .ok ⟨"upload deleted"⟩ ∧
    (DeleteUploadFile ledger uploadId none).2.2 = [] ∧
    ∀ u : Upload, u ∈ (DeleteUploadFile ledger uploadId none).2.1 ↔
      u ∈ ledger ∧ u.uploadId ≠ uploadId := by
  refine ⟨rfl, rfl, fun u => ?_⟩
  simp [DeleteUploadFile, List.mem_filter]

/-- C9: every client the factory tgc.New constructs carries reconnection
backoff with multiplier 1.1 (11/10) bounded by 120 seconds of elapsed time,
and a retry ceiling of 5 attempts with a fixed 5-second inter-retry delay. -/
theorem New_client_resilience_config (config : tgc.AppConfig) (hasHandler : Bool)
    (middlewares : List String) :
    (tgc.New config hasHandler middlewares).opts.reconnectionBackoff.multiplier = 11 / 10 ∧
    (tgc.New config hasHandler middlewares).opts.reconnectionBackoff.maxElapsedTimeSec = 120 ∧
    (tgc.New config hasHandler middlewares).opts.retryIntervalSec = 5 ∧
    (tgc.New config hasHandler middlewares).opts.maxRetries = 5 :=
  ⟨rfl, rfl, rfl, rfl⟩

/-- C10: when no ledger row matches the session id and the query's
retention condition — in particular for a never-used id — GetUploadFileById
succeeds with an empty parts list rather than an error. -/
theorem getUploadFileById_empty_ok (cnf : UploadsConfig) (ledger : List Upload)
    (uploadId : String) (now : Int)
    (h : ∀ u ∈ ledger, u.uploadId = uploadId → ¬ u.createdAt < now + cnf.retention) :
    GetUploadFileById cnf ledger uploadId now none = .ok ⟨[]⟩ := by
  have hfil : (ledger.filter fun u =>
      u.uploadId == uploadId && decide (u.createdAt < now + cnf.retention)) = [] := by
    rw [List.filter_eq_nil_iff]
    intro u hu
    simp only [Bool.and_eq_true, beq_iff_eq, decide_eq_true_eq, not_and]
    exact h u hu
  simp [GetUploadFileById, hfil, sortByPartNo]

/-- C10 witness: the claim at a ledger holding only another session's row. -/
theorem getUploadFileById_empty_ok_witness :
    GetUploadFileById baseCnf [otherRow] "upload-abc" 1000 none = .ok ⟨[]⟩ :=
  getUploadFileById_empty_ok baseCnf [otherRow] "upload-abc" 1000 (by decide)

end Teldrive
